import Mathlib

/-!
Shallow embedding of the CAPAROC register-access library (caparoc.cpp).

The MODBUS transport is modelled as a response oracle: for the k-th
transport call of a run, the oracle fixes what the wire returns.  Every
library function is embedded as a state-passing computation that takes the
oracle and the current call counter and returns its result together with
the trace of transport events and delays it produced, plus the advanced
counter.  Machine integers are modelled as `Nat`; the only place where
uint16 wrap-around could matter (the computed register addresses) carries
an explicit `% 65536`.
-/

namespace Caparoc

/-- Transport response oracle: `readResp k a` is the outcome of a single
register read at address `a` when it is the k-th transport call of the
run, `readBlockResp k a n` the outcome of a block read of `n` registers,
and `writeResp k a v` whether a single register write succeeds. -/
structure Conn where
  readResp : Nat → Nat → Option Nat
  readBlockResp : Nat → Nat → Nat → Option (List Nat)
  writeResp : Nat → Nat → Nat → Bool

/-- Observable events of a run: transport operations with their results,
and blocking delays (milliseconds). -/
inductive Ev where
  | readReg (addr : Nat) (result : Option Nat)
  | readRegs (addr count : Nat) (result : Option (List Nat))
  | writeReg (addr value : Nat) (ok : Bool)
  | sleep (ms : Nat)
deriving DecidableEq, Repr

/-- Whether an event is a register write (a device mutation). -/
def Ev.isWrite : Ev → Bool
  | Ev.writeReg _ _ _ => true
  | _ => false

/-- Embeds `read_uint16`: one single-register read. -/
def read_uint16 (conn : Conn) (address k : Nat) : Option Nat × List Ev × Nat :=
  let r := conn.readResp k address
  (r, [Ev.readReg address r], k + 1)

/-- Embeds `write_uint16`: one single-register write. -/
def write_uint16 (conn : Conn) (address value k : Nat) : Bool × List Ev × Nat :=
  let ok := conn.writeResp k address value
  (ok, [Ev.writeReg address value ok], k + 1)

/-- The 32 raw bytes of 16 registers: each register contributes its high
byte first, then its low byte (big-endian MODBUS format). -/
def string32Bytes (regs : List Nat) : List Nat :=
  regs.flatMap (fun r => [(r >>> 8) &&& 0xFF, r &&& 0xFF])

/-- Pure part of `read_string32`: build the 32-byte string, then trim it
at the first null byte when one is present (std::string::find of the null
character followed by resize). -/
def read_string32_pure (regs : List Nat) : List Nat :=
  let raw := string32Bytes regs
  match raw.findIdx? (· = 0) with
  | some e => raw.take e
  | none => raw

/-- Embeds `read_string32`: a 16-register block read decoded to bytes. -/
def read_string32 (conn : Conn) (address k : Nat) :
    Option (List Nat) × List Ev × Nat :=
  let r := conn.readBlockResp k address 16
  (r.map read_string32_pure, [Ev.readRegs address 16 r], k + 1)

/-- The address formula used for every per-module/per-channel register
range: `base + (module_number - 1) * 4 + (channel_number - 1)`, reduced
modulo 2^16 because the C++ result is a uint16_t. -/
def slotAddress (base module_number channel_number : Nat) : Nat :=
  (base + (module_number - 1) * 4 + (channel_number - 1)) % 65536

/-- Decoded global status word (5 flags), as in caparoc.hpp. -/
structure GlobalStatus where
  undervoltage : Bool
  overvoltage : Bool
  cumulative_channel_error : Bool
  cumulative_80_warning : Bool
  system_current_too_high : Bool
deriving DecidableEq, Repr

/-- Decoded per-channel status word (7 flags), as in caparoc.hpp. -/
structure ChannelStatus where
  warning_80_percent : Bool
  overload : Bool
  short_circuit : Bool
  hardware_error : Bool
  voltage_error : Bool
  module_current_too_high : Bool
  system_current_too_high : Bool
deriving DecidableEq, Repr

/-- The bit-mask decoding of the global status word in `get_global_status`. -/
def decodeGlobalStatus (val : Nat) : GlobalStatus :=
  { undervoltage := (val &&& 0x01) != 0
    overvoltage := (val &&& 0x02) != 0
    cumulative_channel_error := (val &&& 0x04) != 0
    cumulative_80_warning := (val &&& 0x08) != 0
    system_current_too_high := (val &&& 0x10) != 0 }

/-- The bit-mask decoding of a channel status word in `get_channel_status`. -/
def decodeChannelStatus (val : Nat) : ChannelStatus :=
  { warning_80_percent := (val &&& 0x01) != 0
    overload := (val &&& 0x02) != 0
    short_circuit := (val &&& 0x04) != 0
    hardware_error := (val &&& 0x08) != 0
    voltage_error := (val &&& 0x10) != 0
    module_current_too_high := (val &&& 0x20) != 0
    system_current_too_high := (val &&& 0x40) != 0 }

/-- Validation failures raised (as std::invalid_argument) by the library,
with the payloads the C++ message interpolates. -/
inductive ValErr where
  | moduleCountUnreadable
  | invalidModule (given lo hi : Nat)
  | channelCountUnreadable (module_number : Nat)
  | invalidChannel (given module_number lo hi : Nat)
  | dialOnly
deriving DecidableEq, Repr

/-- Embeds `get_number_of_connected_modules`: read register 0x2000. -/
def get_number_of_connected_modules (conn : Conn) (k : Nat) :
    Option Nat × List Ev × Nat :=
  read_uint16 conn 0x2000 k

/-- Embeds `get_number_of_channels_for_module`: refuse module numbers
outside [1,16] without touching the transport, otherwise read the
per-module channel-count register `0x2001 + (module_number - 1)`. -/
def get_number_of_channels_for_module (conn : Conn) (module_number k : Nat) :
    Option Nat × List Ev × Nat :=
  if module_number < 1 ∨ module_number > 16 then (none, [], k)
  else read_uint16 conn (0x2001 + (module_number - 1)) k

/-- Embeds `validate_module_number`: re-query the live module count and
require `1 ≤ module_number ≤ count`. -/
def validate_module_number (conn : Conn) (module_number k : Nat) :
    Except ValErr Unit × List Ev × Nat :=
  let s := get_number_of_connected_modules conn k
  match s.1 with
  | none => (Except.error ValErr.moduleCountUnreadable, s.2.1, s.2.2)
  | some num_modules =>
    if module_number < 1 ∨ module_number > num_modules then
      (Except.error (ValErr.invalidModule module_number 1 num_modules), s.2.1, s.2.2)
    else
      (Except.ok (), s.2.1, s.2.2)

/-- Embeds `validate_channel_number`: re-query the live channel count of
the module and require `1 ≤ channel_number ≤ count`. -/
def validate_channel_number (conn : Conn) (module_number channel_number k : Nat) :
    Except ValErr Unit × List Ev × Nat :=
  let s := get_number_of_channels_for_module conn module_number k
  match s.1 with
  | none => (Except.error (ValErr.channelCountUnreadable module_number), s.2.1, s.2.2)
  | some num_channels =>
    if channel_number < 1 ∨ channel_number > num_channels then
      (Except.error (ValErr.invalidChannel channel_number module_number 1 num_channels),
        s.2.1, s.2.2)
    else
      (Except.ok (), s.2.1, s.2.2)

/-- Embeds `get_product_name_module`: validate the module number, then
block-read the 32-byte product name at `0x1010 + (module_number - 1) * 0x10`. -/
def get_product_name_module (conn : Conn) (module_number k : Nat) :
    Except ValErr (Option (List Nat)) × List Ev × Nat :=
  let v := validate_module_number conn module_number k
  match v.1 with
  | Except.error e => (Except.error e, v.2.1, v.2.2)
  | Except.ok _ =>
    let s := read_string32 conn (0x1010 + (module_number - 1) * 0x10) v.2.2
    (Except.ok s.1, v.2.1 ++ s.2.1, s.2.2)

/-- The product-name bytes of the manual-dial-only model
"CAPAROC E2 12-24DC/2-10A", as ASCII codes. -/
def dialOnlyPattern : List Nat :=
  [67, 65, 80, 65, 82, 79, 67, 32, 69, 50, 32, 49,
   50, 45, 50, 52, 68, 67, 47, 50, 45, 49, 48, 65]

/-- Substring search, as std::string::find against npos: does `pat`
occur contiguously inside the byte list. -/
def containsSeq (pat : List Nat) : List Nat → Bool
  | [] => pat.isEmpty
  | a :: l => pat.isPrefixOf (a :: l) || containsSeq pat l

/-- The dial-only refusal condition of `set_nominal_current`: the product
name was read and contains the dial-only model string. -/
def dialCheck (pn : Option (List Nat)) : Bool :=
  match pn with
  | some s => containsSeq dialOnlyPattern s
  | none => false

/-- Embeds the write-with-retry-and-verification loop of
`set_nominal_current`, by the number of remaining attempts.  Each attempt:
write the value; on transport failure delay 50ms and go to the next
attempt; on success delay 50ms, read the register back, and stop with
success when the read-back equals the value, otherwise delay 50ms and go
to the next attempt. -/
def writeVerifyLoop (conn : Conn) (address value : Nat) :
    Nat → Nat → Bool × List Ev × Nat
  | 0, k => (false, [], k)
  | n + 1, k =>
    let w := write_uint16 conn address value k
    if w.1 then
      let r := read_uint16 conn address w.2.2
      if r.1 = some value then
        (true, w.2.1 ++ [Ev.sleep 50] ++ r.2.1, r.2.2)
      else
        let rest := writeVerifyLoop conn address value n r.2.2
        (rest.1, w.2.1 ++ [Ev.sleep 50] ++ r.2.1 ++ [Ev.sleep 50] ++ rest.2.1, rest.2.2)
    else
      let rest := writeVerifyLoop conn address value n w.2.2
      (rest.1, w.2.1 ++ [Ev.sleep 50] ++ rest.2.1, rest.2.2)

/-- The retry bound of the protected write (kRetries). -/
def kRetries : Nat := 5

/-- Embeds `set_nominal_current`: validate module and channel against the
live topology, refuse the manual-dial-only model, settle for the reported
maximum bus-cycle period (default 100ms) plus 50ms, unlock the channel
lock then the global lock (aborting on transport failure of either
write), run the bounded write/verify loop, then re-lock.  After a failed
verification the two re-lock writes run with their results ignored; after
a verified write each re-lock write aborts the function with failure when
it itself fails. -/
def set_nominal_current (conn : Conn)
    (module_number channel_number nominal_current k : Nat) :
    Except ValErr Bool × List Ev × Nat :=
  let v₁ := validate_module_number conn module_number k
  match v₁.1 with
  | Except.error e => (Except.error e, v₁.2.1, v₁.2.2)
  | Except.ok _ =>
  let v₂ := validate_channel_number conn module_number channel_number v₁.2.2
  match v₂.1 with
  | Except.error e => (Except.error e, v₁.2.1 ++ v₂.2.1, v₂.2.2)
  | Except.ok _ =>
  let pn := get_product_name_module conn module_number v₂.2.2
  let tr₀ := v₁.2.1 ++ v₂.2.1 ++ pn.2.1
  match pn.1 with
  | Except.error e => (Except.error e, tr₀, pn.2.2)
  | Except.ok product_name_opt =>
  if dialCheck product_name_opt then (Except.error ValErr.dialOnly, tr₀, pn.2.2)
  else
  let address := slotAddress 0xC050 module_number channel_number
  let cyc := read_uint16 conn 0x6006 pn.2.2
  let max_bus_cycle_ms := cyc.1.getD 100
  let tr₁ := tr₀ ++ cyc.2.1 ++ [Ev.sleep (max_bus_cycle_ms + 50)]
  let global_lock_address := 0xC001
  let channel_lock_address := slotAddress 0xC090 module_number channel_number
  let u₁ := write_uint16 conn channel_lock_address 0 cyc.2.2
  if !u₁.1 then (Except.ok false, tr₁ ++ u₁.2.1, u₁.2.2)
  else
  let u₂ := write_uint16 conn global_lock_address 0 u₁.2.2
  if !u₂.1 then (Except.ok false, tr₁ ++ u₁.2.1 ++ [Ev.sleep 50] ++ u₂.2.1, u₂.2.2)
  else
  let tr₂ := tr₁ ++ u₁.2.1 ++ [Ev.sleep 50] ++ u₂.2.1 ++ [Ev.sleep 50]
  let loop := writeVerifyLoop conn address nominal_current kRetries u₂.2.2
  if !loop.1 then
    let r₁ := write_uint16 conn global_lock_address 1 loop.2.2
    let r₂ := write_uint16 conn channel_lock_address 1 r₁.2.2
    (Except.ok false, tr₂ ++ loop.2.1 ++ r₁.2.1 ++ r₂.2.1, r₂.2.2)
  else
  let r₁ := write_uint16 conn global_lock_address 1 loop.2.2
  if !r₁.1 then (Except.ok false, tr₂ ++ loop.2.1 ++ r₁.2.1, r₁.2.2)
  else
  let r₂ := write_uint16 conn channel_lock_address 1 r₁.2.2
  if !r₂.1 then
    (Except.ok false, tr₂ ++ loop.2.1 ++ r₁.2.1 ++ [Ev.sleep 50] ++ r₂.2.1, r₂.2.2)
  else
    (Except.ok true,
      tr₂ ++ loop.2.1 ++ r₁.2.1 ++ [Ev.sleep 50] ++ r₂.2.1 ++ [Ev.sleep 100], r₂.2.2)

/-- Embeds `get_nominal_current`: validate, then read the per-channel
nominal-current register. -/
def get_nominal_current (conn : Conn) (module_number channel_number k : Nat) :
    Except ValErr (Option Nat) × List Ev × Nat :=
  let v₁ := validate_module_number conn module_number k
  match v₁.1 with
  | Except.error e => (Except.error e, v₁.2.1, v₁.2.2)
  | Except.ok _ =>
  let v₂ := validate_channel_number conn module_number channel_number v₁.2.2
  match v₂.1 with
  | Except.error e => (Except.error e, v₁.2.1 ++ v₂.2.1, v₂.2.2)
  | Except.ok _ =>
  let r := read_uint16 conn (slotAddress 0xC050 module_number channel_number) v₂.2.2
  (Except.ok r.1, v₁.2.1 ++ v₂.2.1 ++ r.2.1, r.2.2)

/-- Embeds `get_channel_status`: validate, read the per-channel status
word, decode its 7 flags. -/
def get_channel_status (conn : Conn) (module_number channel_number k : Nat) :
    Except ValErr (Option ChannelStatus) × List Ev × Nat :=
  let v₁ := validate_module_number conn module_number k
  match v₁.1 with
  | Except.error e => (Except.error e, v₁.2.1, v₁.2.2)
  | Except.ok _ =>
  let v₂ := validate_channel_number conn module_number channel_number v₁.2.2
  match v₂.1 with
  | Except.error e => (Except.error e, v₁.2.1 ++ v₂.2.1, v₂.2.2)
  | Except.ok _ =>
  let r := read_uint16 conn (slotAddress 0x6010 module_number channel_number) v₂.2.2
  (Except.ok (r.1.map decodeChannelStatus), v₁.2.1 ++ v₂.2.1 ++ r.2.1, r.2.2)

/-- Embeds `get_load_current`: validate, then read the per-channel load
current register. -/
def get_load_current (conn : Conn) (module_number channel_number k : Nat) :
    Except ValErr (Option Nat) × List Ev × Nat :=
  let v₁ := validate_module_number conn module_number k
  match v₁.1 with
  | Except.error e => (Except.error e, v₁.2.1, v₁.2.2)
  | Except.ok _ =>
  let v₂ := validate_channel_number conn module_number channel_number v₁.2.2
  match v₂.1 with
  | Except.error e => (Except.error e, v₁.2.1 ++ v₂.2.1, v₂.2.2)
  | Except.ok _ =>
  let r := read_uint16 conn (slotAddress 0x6050 module_number channel_number) v₂.2.2
  (Except.ok r.1, v₁.2.1 ++ v₂.2.1 ++ r.2.1, r.2.2)

/-- Embeds `control_channel`: validate, then write 1 or 0 to the
per-channel on/off control register. -/
def control_channel (conn : Conn) (module_number channel_number k : Nat) (turn_on : Bool) :
    Except ValErr Bool × List Ev × Nat :=
  let v₁ := validate_module_number conn module_number k
  match v₁.1 with
  | Except.error e => (Except.error e, v₁.2.1, v₁.2.2)
  | Except.ok _ =>
  let v₂ := validate_channel_number conn module_number channel_number v₁.2.2
  match v₂.1 with
  | Except.error e => (Except.error e, v₁.2.1 ++ v₂.2.1, v₂.2.2)
  | Except.ok _ =>
  let w := write_uint16 conn (slotAddress 0xC010 module_number channel_number)
    (if turn_on then 1 else 0) v₂.2.2
  (Except.ok w.1, v₁.2.1 ++ v₂.2.1 ++ w.2.1, w.2.2)

/-- Embeds `get_global_status`: read the global status word at 0x6000 and
decode its 5 flags; a failed read yields no status. -/
def get_global_status (conn : Conn) (k : Nat) :
    Option GlobalStatus × List Ev × Nat :=
  let r := read_uint16 conn 0x6000 k
  (r.1.map decodeGlobalStatus, r.2.1, r.2.2)

/-- One step of the derived device lock state: a successful write to the
given register updates the state to the written value, every other event
leaves it unchanged. -/
def lockUpd (addr s : Nat) : Ev → Nat
  | Ev.writeReg a v true => if a = addr then v else s
  | _ => s

/-- Device lock state derived from a trace: starting from the locked
value 1, each successful write to the given lock register updates the
state to the written value. -/
def lockStateAfter (addr : Nat) (tr : List Ev) : Nat :=
  tr.foldl (lockUpd addr) 1

/-- A concrete oracle for closed evaluations: 2 connected modules with 4
channels each, every other register reads as 7, block reads fail, every
write succeeds. -/
def sampleConn : Conn where
  readResp := fun _ a =>
    if a = 0x2000 then some 2
    else if a = 0x2001 ∨ a = 0x2002 then some 4
    else some 7
  readBlockResp := fun _ _ _ => none
  writeResp := fun _ _ _ => true

/-- A concrete oracle with one module of 4 channels on which every step
of the protected write succeeds: every non-topology register reads as 7,
so writing the value 7 verifies on the first attempt. -/
def okConn : Conn where
  readResp := fun _ a =>
    if a = 0x2000 then some 1
    else if a = 0x2001 then some 4
    else some 7
  readBlockResp := fun _ _ _ => none
  writeResp := fun _ _ _ => true

/-- A concrete oracle on which the channel-unlock write succeeds and the
global-unlock write fails: topology is one module of 4 channels, reads of
other registers fail, and exactly the write of 0 to the global lock
register 0xC001 fails. -/
def cxConnC1 : Conn where
  readResp := fun _ a =>
    if a = 0x2000 then some 1
    else if a = 0x2001 then some 4
    else none
  readBlockResp := fun _ _ _ => none
  writeResp := fun _ a v => if a = 0xC001 ∧ v = 0 then false else true

/-- A concrete oracle on which the protected write verifies (every plain
register reads as 10) but the re-lock write of 1 to the global lock
register 0xC001 fails. -/
def cxConnC3 : Conn where
  readResp := fun _ a =>
    if a = 0x2000 then some 1
    else if a = 0x2001 then some 4
    else some 10
  readBlockResp := fun _ _ _ => none
  writeResp := fun _ a v => if a = 0xC001 ∧ v = 1 then false else true

/-- The 16 registers encoding the dial-only product name
"CAPAROC E2 12-24DC/2-10A" padded with null bytes. -/
def dialRegs : List Nat :=
  [17217, 20545, 21071, 17184, 17714, 8241, 12845, 12852,
   17475, 12082, 11569, 12353, 0, 0, 0, 0]

/-- A concrete oracle whose module 1 reports the dial-only product name. -/
def dialConn : Conn where
  readResp := fun _ a =>
    if a = 0x2000 then some 1
    else if a = 0x2001 then some 4
    else some 7
  readBlockResp := fun _ _ _ => some dialRegs
  writeResp := fun _ _ _ => true

-- ===========================================================================
-- Helper lemmas
-- ===========================================================================

theorem maskBitChar (w i : Nat) : ((w &&& 2 ^ i) != 0) = w.testBit i := by
  have hp : (2 : Nat) ^ i ≠ 0 :=
    Nat.pos_iff_ne_zero.mp (Nat.pos_pow_of_pos i (by norm_num))
  cases h : w.testBit i <;>
    · have := Nat.and_two_pow w i
      simp [h] at this
      simp [bne_iff_ne, this, hp]

theorem maskBit0 (v : Nat) : ((v &&& 1) != 0) = v.testBit 0 := by
  simpa using maskBitChar v 0

theorem maskBit1 (v : Nat) : ((v &&& 2) != 0) = v.testBit 1 := by
  simpa using maskBitChar v 1

theorem maskBit2 (v : Nat) : ((v &&& 4) != 0) = v.testBit 2 := by
  simpa using maskBitChar v 2

theorem maskBit3 (v : Nat) : ((v &&& 8) != 0) = v.testBit 3 := by
  simpa using maskBitChar v 3

theorem maskBit4 (v : Nat) : ((v &&& 16) != 0) = v.testBit 4 := by
  simpa using maskBitChar v 4

theorem maskBit5 (v : Nat) : ((v &&& 32) != 0) = v.testBit 5 := by
  simpa using maskBitChar v 5

theorem maskBit6 (v : Nat) : ((v &&& 64) != 0) = v.testBit 6 := by
  simpa using maskBitChar v 6

theorem testBitModPow (w j i : Nat) (h : i < j) :
    (w % 2 ^ j).testBit i = w.testBit i := by
  rw [Nat.testBit_mod_two_pow]
  simp [h]

theorem string32Bytes_length (regs : List Nat) :
    (string32Bytes regs).length = 2 * regs.length := by
  induction regs with
  | nil => rfl
  | cons r rs ih => simp [string32Bytes, List.flatMap_cons] at *; omega

theorem string32Bytes_getD (regs : List Nat) (i : Nat) (hi : i < regs.length) :
    (string32Bytes regs).getD (2 * i) 0 = ((regs.getD i 0) >>> 8) &&& 0xFF ∧
    (string32Bytes regs).getD (2 * i + 1) 0 = (regs.getD i 0) &&& 0xFF := by
  induction regs generalizing i with
  | nil => simp at hi
  | cons r rs ih =>
    cases i with
    | zero => simp [string32Bytes]
    | succ j =>
      have h2 : 2 * (j + 1) = 2 * j + 1 + 1 := by ring
      have hj : j < rs.length := by simp at hi; omega
      have := ih j hj
      simp only [string32Bytes, List.flatMap_cons] at *
      rw [h2]
      simpa using this

theorem trimMatchEqTakeWhile (l : List Nat) :
    (match l.findIdx? (· = 0) with
     | some e => l.take e
     | none => l) = l.takeWhile (fun b => b != 0) := by
  induction l with
  | nil => rfl
  | cons a t ih =>
    rw [List.findIdx?_cons]
    by_cases h : a = 0
    · simp [h, List.takeWhile_cons]
    · rw [List.findIdx?_succ]
      cases hf : t.findIdx? (fun b => decide (b = 0)) with
      | none =>
        simp only [hf] at ih ⊢
        simp [h, List.takeWhile_cons, ← ih]
      | some e =>
        simp only [hf] at ih ⊢
        simp [h, List.takeWhile_cons, List.take_succ_cons, ← ih]

theorem read_string32_pure_eq_takeWhile (regs : List Nat) :
    read_string32_pure regs = (string32Bytes regs).takeWhile (fun b => b != 0) :=
  trimMatchEqTakeWhile (string32Bytes regs)

theorem validate_module_number_ok (conn : Conn) (m k N : Nat)
    (hN : conn.readResp k 0x2000 = some N) (h1 : 1 ≤ m) (h2 : m ≤ N) :
    validate_module_number conn m k =
      (Except.ok (), [Ev.readReg 0x2000 (some N)], k + 1) := by
  unfold validate_module_number get_number_of_connected_modules read_uint16
  rw [hN]
  dsimp only
  rw [if_neg (by omega)]

theorem validate_module_number_outOfRange (conn : Conn) (m k N : Nat)
    (hN : conn.readResp k 0x2000 = some N) (h : m < 1 ∨ m > N) :
    validate_module_number conn m k =
      (Except.error (ValErr.invalidModule m 1 N), [Ev.readReg 0x2000 (some N)], k + 1) := by
  unfold validate_module_number get_number_of_connected_modules read_uint16
  rw [hN]
  dsimp only
  rw [if_pos h]

theorem validate_channel_number_ok (conn : Conn) (m c k C : Nat)
    (hC : conn.readResp k (0x2001 + (m - 1)) = some C)
    (hm1 : 1 ≤ m) (hm16 : m ≤ 16) (hc1 : 1 ≤ c) (hc2 : c ≤ C) :
    validate_channel_number conn m c k =
      (Except.ok (), [Ev.readReg (0x2001 + (m - 1)) (some C)], k + 1) := by
  unfold validate_channel_number get_number_of_channels_for_module read_uint16
  rw [if_neg (by omega)]
  rw [hC]
  dsimp only
  rw [if_neg (by omega)]

theorem validate_channel_number_outOfRange (conn : Conn) (m c k C : Nat)
    (hC : conn.readResp k (0x2001 + (m - 1)) = some C)
    (hm1 : 1 ≤ m) (hm16 : m ≤ 16) (hc : c < 1 ∨ c > C) :
    validate_channel_number conn m c k =
      (Except.error (ValErr.invalidChannel c m 1 C),
        [Ev.readReg (0x2001 + (m - 1)) (some C)], k + 1) := by
  unfold validate_channel_number get_number_of_channels_for_module read_uint16
  rw [if_neg (by omega)]
  rw [hC]
  dsimp only
  rw [if_pos hc]

theorem get_product_name_module_ok (conn : Conn) (m k N : Nat)
    (hN : conn.readResp k 0x2000 = some N) (h1 : 1 ≤ m) (h2 : m ≤ N) :
    get_product_name_module conn m k =
      (Except.ok ((conn.readBlockResp (k + 1) (0x1010 + (m - 1) * 0x10) 16).map
          read_string32_pure),
       [Ev.readReg 0x2000 (some N),
        Ev.readRegs (0x1010 + (m - 1) * 0x10) 16
          (conn.readBlockResp (k + 1) (0x1010 + (m - 1) * 0x10) 16)],
       k + 2) := by
  unfold get_product_name_module
  rw [validate_module_number_ok conn m k N hN h1 h2]
  dsimp only
  unfold read_string32
  dsimp only
  rfl

theorem snc_reduce (conn : Conn) (m c v k N C : Nat)
    (hN : ∀ j, conn.readResp j 0x2000 = some N)
    (hCc : ∀ j, conn.readResp j (0x2001 + (m - 1)) = some C)
    (hm1 : 1 ≤ m) (hmN : m ≤ N) (hN16 : N ≤ 16) (hc1 : 1 ≤ c) (hcC : c ≤ C)
    (hDial : dialCheck ((conn.readBlockResp (k + 3) (0x1010 + (m - 1) * 0x10) 16).map
      read_string32_pure) = false) :
    set_nominal_current conn m c v k =
      (let blk := conn.readBlockResp (k + 3) (0x1010 + (m - 1) * 0x10) 16
       let cycR := conn.readResp (k + 4) 0x6006
       let chLk := slotAddress 0xC090 m c
       let tr₁ : List Ev := [Ev.readReg 0x2000 (some N),
         Ev.readReg (0x2001 + (m - 1)) (some C), Ev.readReg 0x2000 (some N),
         Ev.readRegs (0x1010 + (m - 1) * 0x10) 16 blk,
         Ev.readReg 0x6006 cycR, Ev.sleep (cycR.getD 100 + 50)]
       if conn.writeResp (k + 5) chLk 0 = false then
         (Except.ok false, tr₁ ++ [Ev.writeReg chLk 0 false], k + 6)
       else if conn.writeResp (k + 6) 0xC001 0 = false then
         (Except.ok false,
          tr₁ ++ [Ev.writeReg chLk 0 true, Ev.sleep 50, Ev.writeReg 0xC001 0 false], k + 7)
       else
         let loop := writeVerifyLoop conn (slotAddress 0xC050 m c) v kRetries (k + 7)
         let tr₂ := tr₁ ++ [Ev.writeReg chLk 0 true, Ev.sleep 50,
           Ev.writeReg 0xC001 0 true, Ev.sleep 50] ++ loop.2.1
         if loop.1 = false then
           (Except.ok false,
            tr₂ ++ [Ev.writeReg 0xC001 1 (conn.writeResp loop.2.2 0xC001 1),
              Ev.writeReg chLk 1 (conn.writeResp (loop.2.2 + 1) chLk 1)],
            loop.2.2 + 2)
         else if conn.writeResp loop.2.2 0xC001 1 = false then
           (Except.ok false, tr₂ ++ [Ev.writeReg 0xC001 1 false], loop.2.2 + 1)
         else if conn.writeResp (loop.2.2 + 1) chLk 1 = false then
           (Except.ok false,
            tr₂ ++ [Ev.writeReg 0xC001 1 true, Ev.sleep 50, Ev.writeReg chLk 1 false],
            loop.2.2 + 2)
         else
           (Except.ok true,
            tr₂ ++ [Ev.writeReg 0xC001 1 true, Ev.sleep 50, Ev.writeReg chLk 1 true,
              Ev.sleep 100],
            loop.2.2 + 2)) := by
  unfold set_nominal_current
  rw [validate_module_number_ok conn m k N (hN k) hm1 hmN]
  dsimp only
  rw [validate_channel_number_ok conn m c (k + 1) C (hCc (k + 1)) hm1
    (le_trans hmN hN16) hc1 hcC]
  dsimp only
  rw [get_product_name_module_ok conn m (k + 2) N (hN (k + 2)) hm1 hmN]
  dsimp only
  rw [hDial]
  rw [if_neg (by simp)]
  unfold read_uint16 write_uint16
  dsimp only
  simp +arith only [Bool.not_eq_true']
  by_cases h₁ : conn.writeResp (k + 5) (slotAddress 0xC090 m c) 0 = false
  · simp [h₁]
  · by_cases h₂ : conn.writeResp (k + 6) 0xC001 0 = false
    · simp [h₁, h₂]
    · by_cases h₃ : (writeVerifyLoop conn (slotAddress 0xC050 m c) v kRetries (k + 7)).1 = false
      · simp [h₁, h₂, h₃]
      · by_cases h₄ : conn.writeResp
          (writeVerifyLoop conn (slotAddress 0xC050 m c) v kRetries (k + 7)).2.2 0xC001 1 = false
        · simp [h₁, h₂, h₃, h₄]
        · by_cases h₅ : conn.writeResp
            ((writeVerifyLoop conn (slotAddress 0xC050 m c) v kRetries (k + 7)).2.2 + 1)
            (slotAddress 0xC090 m c) 1 = false
          · simp [h₁, h₂, h₃, h₄, h₅]
          · simp [h₁, h₂, h₃, h₄, h₅]

theorem wvl_zero (conn : Conn) (a v k : Nat) :
    writeVerifyLoop conn a v 0 k = (false, [], k) := rfl

theorem wvl_writeFail (conn : Conn) (a v n k : Nat)
    (h : conn.writeResp k a v = false) :
    writeVerifyLoop conn a v (n + 1) k =
      ((writeVerifyLoop conn a v n (k + 1)).1,
       Ev.writeReg a v false :: Ev.sleep 50 :: (writeVerifyLoop conn a v n (k + 1)).2.1,
       (writeVerifyLoop conn a v n (k + 1)).2.2) := by
  conv_lhs => rw [writeVerifyLoop]
  simp [h, write_uint16]

theorem wvl_verified (conn : Conn) (a v n k : Nat)
    (hw : conn.writeResp k a v = true) (hr : conn.readResp (k + 1) a = some v) :
    writeVerifyLoop conn a v (n + 1) k =
      (true, [Ev.writeReg a v true, Ev.sleep 50, Ev.readReg a (some v)], k + 2) := by
  conv_lhs => rw [writeVerifyLoop]
  simp +arith [hw, hr, write_uint16, read_uint16]

theorem wvl_mismatch (conn : Conn) (a v n k : Nat)
    (hw : conn.writeResp k a v = true) (hr : conn.readResp (k + 1) a ≠ some v) :
    writeVerifyLoop conn a v (n + 1) k =
      ((writeVerifyLoop conn a v n (k + 2)).1,
       Ev.writeReg a v true :: Ev.sleep 50 :: Ev.readReg a (conn.readResp (k + 1) a) ::
         Ev.sleep 50 :: (writeVerifyLoop conn a v n (k + 2)).2.1,
       (writeVerifyLoop conn a v n (k + 2)).2.2) := by
  conv_lhs => rw [writeVerifyLoop]
  simp +arith [hw, hr, write_uint16, read_uint16]

theorem wvl_writes_only_target (conn : Conn) (a v : Nat) :
    ∀ n k e, e ∈ (writeVerifyLoop conn a v n k).2.1 → e.isWrite = true →
      ∃ ok, e = Ev.writeReg a v ok := by
  intro n
  induction n with
  | zero => intro k e he; simp [wvl_zero] at he
  | succ n ih =>
    intro k e he hw
    by_cases h : conn.writeResp k a v = false
    · rw [wvl_writeFail conn a v n k h] at he
      simp at he
      rcases he with h1 | h1 | h1
      · exact ⟨false, h1⟩
      · subst h1; simp [Ev.isWrite] at hw
      · exact ih (k + 1) e h1 hw
    · have h' : conn.writeResp k a v = true := by
        cases hx : conn.writeResp k a v
        · exact absurd hx h
        · rfl
      by_cases hr : conn.readResp (k + 1) a = some v
      · rw [wvl_verified conn a v n k h' hr] at he
        simp at he
        rcases he with h1 | h1 | h1
        · exact ⟨true, h1⟩
        · subst h1; simp [Ev.isWrite] at hw
        · subst h1; simp [Ev.isWrite] at hw
      · rw [wvl_mismatch conn a v n k h' hr] at he
        simp at he
        rcases he with h1 | h1 | h1 | h1 | h1
        · exact ⟨true, h1⟩
        · subst h1; simp [Ev.isWrite] at hw
        · subst h1; simp [Ev.isWrite] at hw
        · subst h1; simp [Ev.isWrite] at hw
        · exact ih (k + 2) e h1 hw

theorem wvl_write_count (conn : Conn) (a v : Nat) :
    ∀ n k, ((writeVerifyLoop conn a v n k).2.1.filter Ev.isWrite).length ≤ n := by
  intro n
  induction n with
  | zero => intro k; simp [wvl_zero]
  | succ n ih =>
    intro k
    by_cases h : conn.writeResp k a v = false
    · rw [wvl_writeFail conn a v n k h]
      have := ih (k + 1)
      simp [Ev.isWrite]
      omega
    · have h' : conn.writeResp k a v = true := by
        cases hx : conn.writeResp k a v
        · exact absurd hx h
        · rfl
      by_cases hr : conn.readResp (k + 1) a = some v
      · rw [wvl_verified conn a v n k h' hr]
        simp [Ev.isWrite]
      · rw [wvl_mismatch conn a v n k h' hr]
        have := ih (k + 2)
        simp [Ev.isWrite]
        omega

theorem foldl_lockUpd_no_write (addr : Nat) :
    ∀ (tr : List Ev) (s : Nat), (∀ v, Ev.writeReg addr v true ∉ tr) →
      tr.foldl (lockUpd addr) s = s := by
  intro tr
  induction tr with
  | nil => intro s _; rfl
  | cons e t ih =>
    intro s h
    have h1 : ∀ v, Ev.writeReg addr v true ∉ t := by
      intro v hv
      exact h v (List.mem_cons_of_mem e hv)
    have h2 : lockUpd addr s e = s := by
      cases e with
      | writeReg a w ok =>
        cases ok
        · rfl
        · have : ¬a = addr := by
            intro hh
            exact h w (by rw [hh]; exact List.mem_cons_self _ _)
          simp [lockUpd, this]
      | readReg a r => rfl
      | readRegs a c r => rfl
      | sleep ms => rfl
    rw [List.foldl_cons, h2]
    exact ih s h1

theorem snc_dial_reduce (conn : Conn) (m c v k N C : Nat)
    (hN : ∀ j, conn.readResp j 0x2000 = some N)
    (hCc : ∀ j, conn.readResp j (0x2001 + (m - 1)) = some C)
    (hm1 : 1 ≤ m) (hmN : m ≤ N) (hN16 : N ≤ 16) (hc1 : 1 ≤ c) (hcC : c ≤ C)
    (hDial : dialCheck ((conn.readBlockResp (k + 3) (0x1010 + (m - 1) * 0x10) 16).map
      read_string32_pure) = true) :
    set_nominal_current conn m c v k =
      (Except.error ValErr.dialOnly,
       [Ev.readReg 0x2000 (some N), Ev.readReg (0x2001 + (m - 1)) (some C),
        Ev.readReg 0x2000 (some N),
        Ev.readRegs (0x1010 + (m - 1) * 0x10) 16
          (conn.readBlockResp (k + 3) (0x1010 + (m - 1) * 0x10) 16)],
       k + 4) := by
  unfold set_nominal_current
  rw [validate_module_number_ok conn m k N (hN k) hm1 hmN]
  dsimp only
  rw [validate_channel_number_ok conn m c (k + 1) C (hCc (k + 1)) hm1
    (le_trans hmN hN16) hc1 hcC]
  dsimp only
  rw [get_product_name_module_ok conn m (k + 2) N (hN (k + 2)) hm1 hmN]
  dsimp only
  rw [hDial]
  simp +arith

theorem snc_result_ok (conn : Conn) (m c v k N C : Nat)
    (hN : ∀ j, conn.readResp j 0x2000 = some N)
    (hCc : ∀ j, conn.readResp j (0x2001 + (m - 1)) = some C)
    (hm1 : 1 ≤ m) (hmN : m ≤ N) (hN16 : N ≤ 16) (hc1 : 1 ≤ c) (hcC : c ≤ C)
    (hDial : dialCheck ((conn.readBlockResp (k + 3) (0x1010 + (m - 1) * 0x10) 16).map
      read_string32_pure) = false) :
    ∃ b, (set_nominal_current conn m c v k).1 = Except.ok b := by
  rw [snc_reduce conn m c v k N C hN hCc hm1 hmN hN16 hc1 hcC hDial]
  dsimp only
  split_ifs <;> exact ⟨_, rfl⟩

theorem nomAddr_ne_global (m c : Nat) (hm1 : 1 ≤ m) (hm16 : m ≤ 16)
    (hc1 : 1 ≤ c) (hc255 : c ≤ 255) : slotAddress 0xC050 m c ≠ 0xC001 := by
  simp only [slotAddress]
  omega

theorem chLk_ne_global (m c : Nat) (hm1 : 1 ≤ m) (hm16 : m ≤ 16)
    (hc1 : 1 ≤ c) (hc255 : c ≤ 255) : slotAddress 0xC090 m c ≠ 0xC001 := by
  simp only [slotAddress]
  omega

theorem nomAddr_ne_chLk (m c : Nat) (hm1 : 1 ≤ m) (hm16 : m ≤ 16)
    (hc1 : 1 ≤ c) (hc255 : c ≤ 255) :
    slotAddress 0xC050 m c ≠ slotAddress 0xC090 m c := by
  simp only [slotAddress]
  omega

theorem wvl_lockFold (conn : Conn) (a v n k addr s : Nat) (haddr : addr ≠ a) :
    ((writeVerifyLoop conn a v n k).2.1).foldl (lockUpd addr) s = s := by
  apply foldl_lockUpd_no_write
  intro v₀ hmem
  obtain ⟨ok, heq⟩ := wvl_writes_only_target conn a v n k _ hmem rfl
  cases heq
  exact haddr rfl

theorem wvl_filter_nil (conn : Conn) (a v n k : Nat) (p : Ev → Bool)
    (hw : ∀ ok, p (Ev.writeReg a v ok) = false)
    (hr : ∀ ad r, p (Ev.readReg ad r) = false)
    (hrs : ∀ ad cnt r, p (Ev.readRegs ad cnt r) = false)
    (hs : ∀ ms, p (Ev.sleep ms) = false) :
    (writeVerifyLoop conn a v n k).2.1.filter p = [] := by
  rw [List.filter_eq_nil]
  intro e he
  cases hp : p e
  · exact Bool.false_ne_true
  · exfalso
    cases e with
    | writeReg a₀ v₀ ok₀ =>
      obtain ⟨ok, heq⟩ := wvl_writes_only_target conn a v n k _ he rfl
      rw [heq, hw ok] at hp
      exact Bool.false_ne_true hp
    | readReg ad r => rw [hr ad r] at hp; exact Bool.false_ne_true hp
    | readRegs ad cnt r => rw [hrs ad cnt r] at hp; exact Bool.false_ne_true hp
    | sleep ms => rw [hs ms] at hp; exact Bool.false_ne_true hp

-- ===========================================================================
-- Claim theorems
-- ===========================================================================

/-- C6: status decoding is total (it is a function defined on every word)
and bit-exact: each of the 5 global flags equals the corresponding input
bit, each of the 7 channel flags equals the corresponding input bit, and
bits beyond the defined ones are ignored (decoding only depends on the
word modulo 2^5, respectively 2^7). -/
theorem spec_c6_status_decoding_bit_exact (w : Nat) :
    ((decodeGlobalStatus w).undervoltage = w.testBit 0 ∧
     (decodeGlobalStatus w).overvoltage = w.testBit 1 ∧
     (decodeGlobalStatus w).cumulative_channel_error = w.testBit 2 ∧
     (decodeGlobalStatus w).cumulative_80_warning = w.testBit 3 ∧
     (decodeGlobalStatus w).system_current_too_high = w.testBit 4) ∧
    ((decodeChannelStatus w).warning_80_percent = w.testBit 0 ∧
     (decodeChannelStatus w).overload = w.testBit 1 ∧
     (decodeChannelStatus w).short_circuit = w.testBit 2 ∧
     (decodeChannelStatus w).hardware_error = w.testBit 3 ∧
     (decodeChannelStatus w).voltage_error = w.testBit 4 ∧
     (decodeChannelStatus w).module_current_too_high = w.testBit 5 ∧
     (decodeChannelStatus w).system_current_too_high = w.testBit 6) ∧
    decodeGlobalStatus w = decodeGlobalStatus (w % 2 ^ 5) ∧
    decodeChannelStatus w = decodeChannelStatus (w % 2 ^ 7) := by
  refine ⟨⟨?_, ?_, ?_, ?_, ?_⟩, ⟨?_, ?_, ?_, ?_, ?_, ?_, ?_⟩, ?_, ?_⟩
  · simp [decodeGlobalStatus, maskBit0]
    by_cases h : w % 2 = 1 <;> simp [h]
  · simp [decodeGlobalStatus, maskBit1]
  · simp [decodeGlobalStatus, maskBit2]
  · simp [decodeGlobalStatus, maskBit3]
  · simp [decodeGlobalStatus, maskBit4]
  · simp [decodeChannelStatus, maskBit0]
    by_cases h : w % 2 = 1 <;> simp [h]
  · simp [decodeChannelStatus, maskBit1]
  · simp [decodeChannelStatus, maskBit2]
  · simp [decodeChannelStatus, maskBit3]
  · simp [decodeChannelStatus, maskBit4]
  · simp [decodeChannelStatus, maskBit5]
  · simp [decodeChannelStatus, maskBit6]
  · simp only [decodeGlobalStatus, GlobalStatus.mk.injEq, maskBit0, maskBit1,
      maskBit2, maskBit3, maskBit4]
    exact ⟨(testBitModPow w 5 0 (by norm_num)).symm,
      (testBitModPow w 5 1 (by norm_num)).symm,
      (testBitModPow w 5 2 (by norm_num)).symm,
      (testBitModPow w 5 3 (by norm_num)).symm,
      (testBitModPow w 5 4 (by norm_num)).symm⟩
  · simp only [decodeChannelStatus, ChannelStatus.mk.injEq, maskBit0, maskBit1,
      maskBit2, maskBit3, maskBit4, maskBit5, maskBit6]
    exact ⟨(testBitModPow w 7 0 (by norm_num)).symm,
      (testBitModPow w 7 1 (by norm_num)).symm,
      (testBitModPow w 7 2 (by norm_num)).symm,
      (testBitModPow w 7 3 (by norm_num)).symm,
      (testBitModPow w 7 4 (by norm_num)).symm,
      (testBitModPow w 7 5 (by norm_num)).symm,
      (testBitModPow w 7 6 (by norm_num)).symm⟩

/-- C7: for a fixed base address and stride 4, the slot-address mapping
is injective over the representable topology: distinct (module, channel)
pairs with module in [1,255] and channel in [1,4] map to distinct
addresses. -/
theorem spec_c7_address_injective (base m₁ c₁ m₂ c₂ : Nat)
    (hm₁ : 1 ≤ m₁) (hm₁h : m₁ ≤ 255) (hc₁ : 1 ≤ c₁) (hc₁h : c₁ ≤ 4)
    (hm₂ : 1 ≤ m₂) (hm₂h : m₂ ≤ 255) (hc₂ : 1 ≤ c₂) (hc₂h : c₂ ≤ 4)
    (hne : ¬(m₁ = m₂ ∧ c₁ = c₂)) :
    slotAddress base m₁ c₁ ≠ slotAddress base m₂ c₂ := by
  simp only [slotAddress]
  intro h
  omega

/-- C7 witness: modules 1 and 2 of channel 1 get distinct nominal-current
addresses. -/
theorem spec_c7_witness :
    slotAddress 0xC050 1 1 ≠ slotAddress 0xC050 2 1 :=
  spec_c7_address_injective 0xC050 1 1 2 1 (by decide) (by decide) (by decide)
    (by decide) (by decide) (by decide) (by decide) (by decide) (by decide)

/-- C8: decoding a 32-byte string field from 16 registers produces 32
bytes, the byte at position 2i is the high byte of register i and the
byte at position 2i+1 its low byte (big-endian order, register order),
and the result is the prefix before the first null byte — the whole
string when no null byte occurs. -/
theorem spec_c8_read_string32 (regs : List Nat) (h : regs.length = 16) :
    (string32Bytes regs).length = 32 ∧
    (∀ i, i < 16 →
      (string32Bytes regs).getD (2 * i) 0 = ((regs.getD i 0) >>> 8) &&& 0xFF ∧
      (string32Bytes regs).getD (2 * i + 1) 0 = (regs.getD i 0) &&& 0xFF) ∧
    read_string32_pure regs = (string32Bytes regs).takeWhile (fun b => b != 0) ∧
    ((0 : Nat) ∉ string32Bytes regs → read_string32_pure regs = string32Bytes regs) := by
  refine ⟨by rw [string32Bytes_length, h], ?_, read_string32_pure_eq_takeWhile regs, ?_⟩
  · intro i hi
    exact string32Bytes_getD regs i (by omega)
  · intro h0
    rw [read_string32_pure_eq_takeWhile]
    rw [List.takeWhile_eq_self_iff]
    intro x hx
    simp [bne_iff_ne]
    intro hx0
    exact h0 (hx0 ▸ hx)

/-- C8 witness: the 16-register sequence encoding "ABC" followed by null
bytes decodes to exactly the three bytes of "ABC". -/
theorem spec_c8_witness :
    ([0x4142, 0x4300, 0, 0, 0, 0, 0, 0, 0, 0, 0, 0, 0, 0, 0, 0] : List Nat).length = 16 ∧
    read_string32_pure [0x4142, 0x4300, 0, 0, 0, 0, 0, 0, 0, 0, 0, 0, 0, 0, 0, 0] =
      (string32Bytes [0x4142, 0x4300, 0, 0, 0, 0, 0, 0, 0, 0, 0, 0, 0, 0, 0, 0]).takeWhile
        (fun b => b != 0) :=
  ⟨by decide,
   (spec_c8_read_string32 [0x4142, 0x4300, 0, 0, 0, 0, 0, 0, 0, 0, 0, 0, 0, 0, 0, 0]
     (by decide)).2.2.1⟩

/-- C10: the per-module channel-count query refuses module numbers 0 and
those above 16 without any transport operation (empty trace, counter
unchanged), and for module numbers in [1,16] it performs exactly one
register read at 0x2001 + (module_number - 1). -/
theorem spec_c10_channel_count_query (conn : Conn) (module_number k : Nat) :
    (module_number = 0 ∨ 16 < module_number →
      get_number_of_channels_for_module conn module_number k = (none, [], k)) ∧
    (1 ≤ module_number → module_number ≤ 16 →
      get_number_of_channels_for_module conn module_number k =
        (conn.readResp k (0x2001 + (module_number - 1)),
         [Ev.readReg (0x2001 + (module_number - 1))
            (conn.readResp k (0x2001 + (module_number - 1)))], k + 1)) := by
  constructor
  · intro h
    unfold get_number_of_channels_for_module
    rw [if_pos (by omega)]
  · intro h1 h2
    unfold get_number_of_channels_for_module
    rw [if_neg (by omega)]
    rfl

/-- C10 witness: module 17 is refused with no transport call, module 3 is
answered by one read of register 0x2003. -/
theorem spec_c10_witness :
    get_number_of_channels_for_module sampleConn 17 0 = (none, [], 0) ∧
    get_number_of_channels_for_module sampleConn 3 0 =
      (some 7, [Ev.readReg 0x2003 (some 7)], 1) := by
  have h := spec_c10_channel_count_query sampleConn 17 0
  have h3 := spec_c10_channel_count_query sampleConn 3 0
  exact ⟨h.1 (by omega), by rw [h3.2 (by omega) (by omega)]; rfl⟩

/-- C5: when the product name reported for the target module contains
the dial-only model string "CAPAROC E2 12-24DC/2-10A",
`set_nominal_current` fails with the dial-only validation error and its
trace contains no register write at all: no lock or parameter register
is touched. -/
theorem spec_c5_dial_only_refusal (conn : Conn) (m c v k N C : Nat) (regs : List Nat)
    (hN : ∀ j, conn.readResp j 0x2000 = some N)
    (hCc : ∀ j, conn.readResp j (0x2001 + (m - 1)) = some C)
    (hm1 : 1 ≤ m) (hmN : m ≤ N) (hN16 : N ≤ 16) (hc1 : 1 ≤ c) (hcC : c ≤ C)
    (hBlk : conn.readBlockResp (k + 3) (0x1010 + (m - 1) * 0x10) 16 = some regs)
    (hPat : containsSeq dialOnlyPattern (read_string32_pure regs) = true) :
    (set_nominal_current conn m c v k).1 = Except.error ValErr.dialOnly ∧
    (set_nominal_current conn m c v k).2.1.filter Ev.isWrite = [] := by
  have hDial : dialCheck
      ((conn.readBlockResp (k + 3) (0x1010 + (m - 1) * 0x10) 16).map
        read_string32_pure) = true := by
    rw [hBlk]
    simp [dialCheck, hPat]
  rw [snc_dial_reduce conn m c v k N C hN hCc hm1 hmN hN16 hc1 hcC hDial]
  exact ⟨rfl, by simp [Ev.isWrite]⟩

/-- C5 witness: on an oracle whose module 1 reports the dial-only product
name, the protected write for module 1 channel 1 is refused with the
dial-only error and mutates nothing. -/
theorem spec_c5_witness :
    (set_nominal_current dialConn 1 1 10 0).1 = Except.error ValErr.dialOnly ∧
    (set_nominal_current dialConn 1 1 10 0).2.1.filter Ev.isWrite = [] :=
  spec_c5_dial_only_refusal dialConn 1 1 10 0 1 4 dialRegs
    (fun _ => rfl) (fun _ => rfl) (by decide) (by decide) (by decide) (by decide)
    (by decide) rfl (by decide)

/-- C9: before any lock write, `set_nominal_current` reads the maximum
bus-cycle register 0x6006 and then sleeps for exactly the read period
plus the fixed 50ms margin (period defaulting to 100 when the read
fails): the first seven events of the run are the four validation and
product-name reads, the bus-cycle read, that sleep, and only then the
first lock write. -/
theorem spec_c9_settling_before_lock (conn : Conn) (m c v k N C : Nat)
    (hN : ∀ j, conn.readResp j 0x2000 = some N)
    (hCc : ∀ j, conn.readResp j (0x2001 + (m - 1)) = some C)
    (hm1 : 1 ≤ m) (hmN : m ≤ N) (hN16 : N ≤ 16) (hc1 : 1 ≤ c) (hcC : c ≤ C)
    (hDial : dialCheck ((conn.readBlockResp (k + 3) (0x1010 + (m - 1) * 0x10) 16).map
      read_string32_pure) = false) :
    (set_nominal_current conn m c v k).2.1.take 7 =
      [Ev.readReg 0x2000 (some N), Ev.readReg (0x2001 + (m - 1)) (some C),
       Ev.readReg 0x2000 (some N),
       Ev.readRegs (0x1010 + (m - 1) * 0x10) 16
         (conn.readBlockResp (k + 3) (0x1010 + (m - 1) * 0x10) 16),
       Ev.readReg 0x6006 (conn.readResp (k + 4) 0x6006),
       Ev.sleep ((conn.readResp (k + 4) 0x6006).getD 100 + 50),
       Ev.writeReg (slotAddress 0xC090 m c) 0
         (conn.writeResp (k + 5) (slotAddress 0xC090 m c) 0)] := by
  rw [snc_reduce conn m c v k N C hN hCc hm1 hmN hN16 hc1 hcC hDial]
  dsimp only
  by_cases h₁ : conn.writeResp (k + 5) (slotAddress 0xC090 m c) 0 = false
  · simp [h₁]
  · have h₁t : conn.writeResp (k + 5) (slotAddress 0xC090 m c) 0 = true := by
      cases hx : conn.writeResp (k + 5) (slotAddress 0xC090 m c) 0
      · exact absurd hx h₁
      · rfl
    by_cases h₂ : conn.writeResp (k + 6) 0xC001 0 = false
    · simp [h₁, h₁t, h₂]
    · by_cases h₃ : (writeVerifyLoop conn (slotAddress 0xC050 m c) v kRetries (k + 7)).1 = false
      · simp [h₁, h₁t, h₂, h₃]
      · by_cases h₄ : conn.writeResp
          (writeVerifyLoop conn (slotAddress 0xC050 m c) v kRetries (k + 7)).2.2 0xC001 1 = false
        · simp [h₁, h₁t, h₂, h₃, h₄]
        · by_cases h₅ : conn.writeResp
            ((writeVerifyLoop conn (slotAddress 0xC050 m c) v kRetries (k + 7)).2.2 + 1)
            (slotAddress 0xC090 m c) 1 = false
          · simp [h₁, h₁t, h₂, h₃, h₄, h₅]
          · simp [h₁, h₁t, h₂, h₃, h₄, h₅]

/-- C9 witness: on the all-succeeding oracle, the run for module 1
channel 1 starts with the four reads, the bus-cycle read (7), the sleep
of 7 + 50 = 57ms, and the channel-lock write. -/
theorem spec_c9_witness :
    (set_nominal_current okConn 1 1 7 0).2.1.take 7 =
      [Ev.readReg 0x2000 (some 1), Ev.readReg 0x2001 (some 4),
       Ev.readReg 0x2000 (some 1), Ev.readRegs 0x1010 16 none,
       Ev.readReg 0x6006 (some 7), Ev.sleep 57,
       Ev.writeReg (slotAddress 0xC090 1 1) 0 true] := by
  have h := spec_c9_settling_before_lock okConn 1 1 7 0 1 4
    (fun _ => rfl) (fun _ => rfl) (by decide) (by decide) (by decide) (by decide)
    (by decide) rfl
  rw [h]
  rfl

/-- C4: every module/channel-indexed operation re-queries the live
topology on each call (its trace starts with the module-count read, then
the channel-count read) and fails with the validation error carrying the
offending value and the currently valid range, before any write, exactly
when the module is outside [1, module count] or the channel is outside
[1, channel count]; when both are in range no range validation error is
raised and each operation proceeds to its single register access. -/
theorem spec_c4_validation_policy (conn : Conn) (m c v k N C : Nat) (turn_on : Bool)
    (hN : ∀ j, conn.readResp j 0x2000 = some N)
    (hCc : ∀ j, conn.readResp j (0x2001 + (m - 1)) = some C)
    (hN16 : N ≤ 16) :
    (m < 1 ∨ m > N →
      set_nominal_current conn m c v k =
        (Except.error (ValErr.invalidModule m 1 N),
         [Ev.readReg 0x2000 (some N)], k + 1) ∧
      get_nominal_current conn m c k =
        (Except.error (ValErr.invalidModule m 1 N),
         [Ev.readReg 0x2000 (some N)], k + 1) ∧
      get_channel_status conn m c k =
        (Except.error (ValErr.invalidModule m 1 N),
         [Ev.readReg 0x2000 (some N)], k + 1) ∧
      get_load_current conn m c k =
        (Except.error (ValErr.invalidModule m 1 N),
         [Ev.readReg 0x2000 (some N)], k + 1) ∧
      control_channel conn m c k turn_on =
        (Except.error (ValErr.invalidModule m 1 N),
         [Ev.readReg 0x2000 (some N)], k + 1)) ∧
    (1 ≤ m → m ≤ N → (c < 1 ∨ c > C) →
      set_nominal_current conn m c v k =
        (Except.error (ValErr.invalidChannel c m 1 C),
         [Ev.readReg 0x2000 (some N), Ev.readReg (0x2001 + (m - 1)) (some C)],
         k + 2) ∧
      get_nominal_current conn m c k =
        (Except.error (ValErr.invalidChannel c m 1 C),
         [Ev.readReg 0x2000 (some N), Ev.readReg (0x2001 + (m - 1)) (some C)],
         k + 2) ∧
      get_channel_status conn m c k =
        (Except.error (ValErr.invalidChannel c m 1 C),
         [Ev.readReg 0x2000 (some N), Ev.readReg (0x2001 + (m - 1)) (some C)],
         k + 2) ∧
      get_load_current conn m c k =
        (Except.error (ValErr.invalidChannel c m 1 C),
         [Ev.readReg 0x2000 (some N), Ev.readReg (0x2001 + (m - 1)) (some C)],
         k + 2) ∧
      control_channel conn m c k turn_on =
        (Except.error (ValErr.invalidChannel c m 1 C),
         [Ev.readReg 0x2000 (some N), Ev.readReg (0x2001 + (m - 1)) (some C)],
         k + 2)) ∧
    (1 ≤ m → m ≤ N → 1 ≤ c → c ≤ C →
      (∀ e, (set_nominal_current conn m c v k).1 = Except.error e →
        e = ValErr.dialOnly) ∧
      get_nominal_current conn m c k =
        (Except.ok (conn.readResp (k + 2) (slotAddress 0xC050 m c)),
         [Ev.readReg 0x2000 (some N), Ev.readReg (0x2001 + (m - 1)) (some C),
          Ev.readReg (slotAddress 0xC050 m c)
            (conn.readResp (k + 2) (slotAddress 0xC050 m c))], k + 3) ∧
      get_channel_status conn m c k =
        (Except.ok ((conn.readResp (k + 2) (slotAddress 0x6010 m c)).map
           decodeChannelStatus),
         [Ev.readReg 0x2000 (some N), Ev.readReg (0x2001 + (m - 1)) (some C),
          Ev.readReg (slotAddress 0x6010 m c)
            (conn.readResp (k + 2) (slotAddress 0x6010 m c))], k + 3) ∧
      get_load_current conn m c k =
        (Except.ok (conn.readResp (k + 2) (slotAddress 0x6050 m c)),
         [Ev.readReg 0x2000 (some N), Ev.readReg (0x2001 + (m - 1)) (some C),
          Ev.readReg (slotAddress 0x6050 m c)
            (conn.readResp (k + 2) (slotAddress 0x6050 m c))], k + 3) ∧
      control_channel conn m c k turn_on =
        (Except.ok (conn.writeResp (k + 2) (slotAddress 0xC010 m c)
           (if turn_on then 1 else 0)),
         [Ev.readReg 0x2000 (some N), Ev.readReg (0x2001 + (m - 1)) (some C),
          Ev.writeReg (slotAddress 0xC010 m c) (if turn_on then 1 else 0)
            (conn.writeResp (k + 2) (slotAddress 0xC010 m c)
              (if turn_on then 1 else 0))], k + 3)) := by
  refine ⟨?_, ?_, ?_⟩
  · intro hA
    refine ⟨?_, ?_, ?_, ?_, ?_⟩
    · unfold set_nominal_current
      rw [validate_module_number_outOfRange conn m k N (hN k) hA]
    · unfold get_nominal_current
      rw [validate_module_number_outOfRange conn m k N (hN k) hA]
    · unfold get_channel_status
      rw [validate_module_number_outOfRange conn m k N (hN k) hA]
    · unfold get_load_current
      rw [validate_module_number_outOfRange conn m k N (hN k) hA]
    · unfold control_channel
      rw [validate_module_number_outOfRange conn m k N (hN k) hA]
  · intro hm1 hmN hB
    have hm16 : m ≤ 16 := le_trans hmN hN16
    refine ⟨?_, ?_, ?_, ?_, ?_⟩
    · unfold set_nominal_current
      rw [validate_module_number_ok conn m k N (hN k) hm1 hmN]
      dsimp only
      rw [validate_channel_number_outOfRange conn m c (k + 1) C (hCc (k + 1)) hm1 hm16 hB]
      simp +arith
    · unfold get_nominal_current
      rw [validate_module_number_ok conn m k N (hN k) hm1 hmN]
      dsimp only
      rw [validate_channel_number_outOfRange conn m c (k + 1) C (hCc (k + 1)) hm1 hm16 hB]
      simp +arith
    · unfold get_channel_status
      rw [validate_module_number_ok conn m k N (hN k) hm1 hmN]
      dsimp only
      rw [validate_channel_number_outOfRange conn m c (k + 1) C (hCc (k + 1)) hm1 hm16 hB]
      simp +arith
    · unfold get_load_current
      rw [validate_module_number_ok conn m k N (hN k) hm1 hmN]
      dsimp only
      rw [validate_channel_number_outOfRange conn m c (k + 1) C (hCc (k + 1)) hm1 hm16 hB]
      simp +arith
    · unfold control_channel
      rw [validate_module_number_ok conn m k N (hN k) hm1 hmN]
      dsimp only
      rw [validate_channel_number_outOfRange conn m c (k + 1) C (hCc (k + 1)) hm1 hm16 hB]
      simp +arith
  · intro hm1 hmN hc1 hcC
    have hm16 : m ≤ 16 := le_trans hmN hN16
    refine ⟨?_, ?_, ?_, ?_, ?_⟩
    · intro e he
      by_cases hD : dialCheck
          ((conn.readBlockResp (k + 3) (0x1010 + (m - 1) * 0x10) 16).map
            read_string32_pure) = true
      · rw [snc_dial_reduce conn m c v k N C hN hCc hm1 hmN hN16 hc1 hcC hD] at he
        dsimp only at he
        simp only [Except.error.injEq] at he
        exact he.symm
      · have hD' : dialCheck
            ((conn.readBlockResp (k + 3) (0x1010 + (m - 1) * 0x10) 16).map
              read_string32_pure) = false := by
          cases hx : dialCheck
            ((conn.readBlockResp (k + 3) (0x1010 + (m - 1) * 0x10) 16).map
              read_string32_pure)
          · rfl
          · exact absurd hx hD
        obtain ⟨b, hb⟩ := snc_result_ok conn m c v k N C hN hCc hm1 hmN hN16 hc1 hcC hD'
        rw [hb] at he
        cases he
    · unfold get_nominal_current
      rw [validate_module_number_ok conn m k N (hN k) hm1 hmN]
      dsimp only
      rw [validate_channel_number_ok conn m c (k + 1) C (hCc (k + 1)) hm1 hm16 hc1 hcC]
      dsimp only
      unfold read_uint16
      simp +arith
    · unfold get_channel_status
      rw [validate_module_number_ok conn m k N (hN k) hm1 hmN]
      dsimp only
      rw [validate_channel_number_ok conn m c (k + 1) C (hCc (k + 1)) hm1 hm16 hc1 hcC]
      dsimp only
      unfold read_uint16
      simp +arith
    · unfold get_load_current
      rw [validate_module_number_ok conn m k N (hN k) hm1 hmN]
      dsimp only
      rw [validate_channel_number_ok conn m c (k + 1) C (hCc (k + 1)) hm1 hm16 hc1 hcC]
      dsimp only
      unfold read_uint16
      simp +arith
    · unfold control_channel
      rw [validate_module_number_ok conn m k N (hN k) hm1 hmN]
      dsimp only
      rw [validate_channel_number_ok conn m c (k + 1) C (hCc (k + 1)) hm1 hm16 hc1 hcC]
      dsimp only
      unfold write_uint16
      simp +arith

/-- C4 witness: on the sample oracle reporting 2 modules of 4 channels,
requesting channel 5 of module 1 fails with the channel validation error
carrying 5 and the range [1,4], after only the two topology reads. -/
theorem spec_c4_witness :
    get_load_current sampleConn 1 5 0 =
      (Except.error (ValErr.invalidChannel 5 1 1 4),
       [Ev.readReg 0x2000 (some 2), Ev.readReg 0x2001 (some 4)], 2) := by
  have h := spec_c4_validation_policy sampleConn 1 5 10 0 2 4 true
    (fun _ => rfl) (fun _ => rfl) (by decide)
  have hB := (h.2.1 (by decide) (by decide) (Or.inr (by decide))).2.2.2.1
  simpa using hB

/-- C2: the write/verify loop makes at most kRetries = 5 attempts; a
failed transport write delays and moves to the next attempt, a
successful write whose read-back equals the written value terminates the
loop as success immediately, a mismatching or unreadable read-back
delays and moves to the next attempt, and exhausting every attempt
yields failure, which `set_nominal_current` reports as an unsuccessful
protocol run. -/
theorem spec_c2_write_verify_loop :
    (∀ (conn : Conn) (a v k : Nat), writeVerifyLoop conn a v 0 k = (false, [], k)) ∧
    (∀ (conn : Conn) (a v n k : Nat), conn.writeResp k a v = false →
      writeVerifyLoop conn a v (n + 1) k =
        ((writeVerifyLoop conn a v n (k + 1)).1,
         Ev.writeReg a v false :: Ev.sleep 50 ::
           (writeVerifyLoop conn a v n (k + 1)).2.1,
         (writeVerifyLoop conn a v n (k + 1)).2.2)) ∧
    (∀ (conn : Conn) (a v n k : Nat), conn.writeResp k a v = true →
      conn.readResp (k + 1) a = some v →
      writeVerifyLoop conn a v (n + 1) k =
        (true, [Ev.writeReg a v true, Ev.sleep 50, Ev.readReg a (some v)], k + 2)) ∧
    (∀ (conn : Conn) (a v n k : Nat), conn.writeResp k a v = true →
      conn.readResp (k + 1) a ≠ some v →
      writeVerifyLoop conn a v (n + 1) k =
        ((writeVerifyLoop conn a v n (k + 2)).1,
         Ev.writeReg a v true :: Ev.sleep 50 ::
           Ev.readReg a (conn.readResp (k + 1) a) :: Ev.sleep 50 ::
             (writeVerifyLoop conn a v n (k + 2)).2.1,
         (writeVerifyLoop conn a v n (k + 2)).2.2)) ∧
    kRetries = 5 ∧
    (∀ (conn : Conn) (a v k : Nat),
      ((writeVerifyLoop conn a v kRetries k).2.1.filter Ev.isWrite).length ≤ 5) ∧
    (∀ (conn : Conn) (m c v k N C : Nat),
      (∀ j, conn.readResp j 0x2000 = some N) →
      (∀ j, conn.readResp j (0x2001 + (m - 1)) = some C) →
      1 ≤ m → m ≤ N → N ≤ 16 → 1 ≤ c → c ≤ C →
      dialCheck ((conn.readBlockResp (k + 3) (0x1010 + (m - 1) * 0x10) 16).map
        read_string32_pure) = false →
      conn.writeResp (k + 5) (slotAddress 0xC090 m c) 0 = true →
      conn.writeResp (k + 6) 0xC001 0 = true →
      (writeVerifyLoop conn (slotAddress 0xC050 m c) v kRetries (k + 7)).1 = false →
      (set_nominal_current conn m c v k).1 = Except.ok false) := by
  refine ⟨wvl_zero, wvl_writeFail, wvl_verified, wvl_mismatch, rfl,
    fun conn a v k => wvl_write_count conn a v kRetries k, ?_⟩
  intro conn m c v k N C hN hCc hm1 hmN hN16 hc1 hcC hDial hu1 hu2 hL
  rw [snc_reduce conn m c v k N C hN hCc hm1 hmN hN16 hc1 hcC hDial]
  dsimp only
  simp [hu1, hu2, hL]

/-- C2 witness: on the all-succeeding sample oracle a first attempt that
writes 7 and reads back 7 terminates the loop as success immediately. -/
theorem spec_c2_witness :
    writeVerifyLoop sampleConn 9 7 1 0 =
      (true, [Ev.writeReg 9 7 true, Ev.sleep 50, Ev.readReg 9 (some 7)], 2) :=
  spec_c2_write_verify_loop.2.2.1 sampleConn 9 7 0 0 rfl rfl

/-- C3 counterexample: on an oracle where the write verifies on the first
attempt (the trace contains the matching read-back of 10 at the
nominal-current register) but the global re-lock write fails, the
protocol reports failure, contradicting the claim that a verified write
reports success regardless of the re-lock writes. -/
theorem spec_c3_counterexample :
    (set_nominal_current cxConnC3 1 1 10 0).1 = Except.ok false ∧
    Ev.readReg (slotAddress 0xC050 1 1) (some 10) ∈
      (set_nominal_current cxConnC3 1 1 10 0).2.1 ∧
    Ev.writeReg 0xC001 1 false ∈ (set_nominal_current cxConnC3 1 1 10 0).2.1 :=
  ⟨rfl, by decide, by decide⟩

/-- C3 amended: after both unlock writes succeed, re-lock failures are
never retried (each lock register receives at most one re-lock write);
on the verification-failure path the re-lock outcomes do not change the
reported failure; but on the verified path the protocol reports success
exactly when both re-lock writes succeed — a failed re-lock write turns
the result into failure. -/
theorem spec_c3_cleanup_best_effort (conn : Conn) (m c v k N C : Nat)
    (hN : ∀ j, conn.readResp j 0x2000 = some N)
    (hCc : ∀ j, conn.readResp j (0x2001 + (m - 1)) = some C)
    (hm1 : 1 ≤ m) (hmN : m ≤ N) (hN16 : N ≤ 16) (hc1 : 1 ≤ c) (hcC : c ≤ C)
    (hc255 : c ≤ 255)
    (hDial : dialCheck ((conn.readBlockResp (k + 3) (0x1010 + (m - 1) * 0x10) 16).map
      read_string32_pure) = false)
    (hu1 : conn.writeResp (k + 5) (slotAddress 0xC090 m c) 0 = true)
    (hu2 : conn.writeResp (k + 6) 0xC001 0 = true) :
    ((writeVerifyLoop conn (slotAddress 0xC050 m c) v kRetries (k + 7)).1 = false →
      (set_nominal_current conn m c v k).1 = Except.ok false) ∧
    ((writeVerifyLoop conn (slotAddress 0xC050 m c) v kRetries (k + 7)).1 = true →
      (set_nominal_current conn m c v k).1 = Except.ok
        (conn.writeResp
            (writeVerifyLoop conn (slotAddress 0xC050 m c) v kRetries (k + 7)).2.2
            0xC001 1 &&
         conn.writeResp
            ((writeVerifyLoop conn (slotAddress 0xC050 m c) v kRetries (k + 7)).2.2 + 1)
            (slotAddress 0xC090 m c) 1)) ∧
    ((set_nominal_current conn m c v k).2.1.filter
       (fun e => match e with
         | Ev.writeReg a v₀ _ => a == 0xC001 && v₀ == 1
         | _ => false)).length ≤ 1 ∧
    ((set_nominal_current conn m c v k).2.1.filter
       (fun e => match e with
         | Ev.writeReg a v₀ _ => a == slotAddress 0xC090 m c && v₀ == 1
         | _ => false)).length ≤ 1 := by
  have hm16 : m ≤ 16 := le_trans hmN hN16
  have hga : slotAddress 0xC050 m c ≠ 0xC001 :=
    nomAddr_ne_global m c hm1 hm16 hc1 hc255
  have hgc : slotAddress 0xC090 m c ≠ 0xC001 :=
    chLk_ne_global m c hm1 hm16 hc1 hc255
  have hnc : slotAddress 0xC050 m c ≠ slotAddress 0xC090 m c :=
    nomAddr_ne_chLk m c hm1 hm16 hc1 hc255
  have hfilG : (writeVerifyLoop conn (slotAddress 0xC050 m c) v kRetries
      (k + 7)).2.1.filter
      (fun e => match e with
        | Ev.writeReg a v₀ _ => a == 0xC001 && v₀ == 1
        | _ => false) = [] := by
    apply wvl_filter_nil
    · intro ok
      simp [Nat.beq_eq_true_eq, hga]
    · intro ad r; rfl
    · intro ad cnt r; rfl
    · intro ms; rfl
  have hfilC : (writeVerifyLoop conn (slotAddress 0xC050 m c) v kRetries
      (k + 7)).2.1.filter
      (fun e => match e with
        | Ev.writeReg a v₀ _ => a == slotAddress 0xC090 m c && v₀ == 1
        | _ => false) = [] := by
    apply wvl_filter_nil
    · intro ok
      simp [Nat.beq_eq_true_eq, hnc]
    · intro ad r; rfl
    · intro ad cnt r; rfl
    · intro ms; rfl
  rw [snc_reduce conn m c v k N C hN hCc hm1 hmN hN16 hc1 hcC hDial]
  dsimp only
  refine ⟨?_, ?_, ?_, ?_⟩
  · intro hL
    simp [hu1, hu2, hL]
  · intro hL
    by_cases hA : conn.writeResp
        (writeVerifyLoop conn (slotAddress 0xC050 m c) v kRetries (k + 7)).2.2
        0xC001 1 = false
    · simp [hu1, hu2, hL, hA]
    · have hAt : conn.writeResp
          (writeVerifyLoop conn (slotAddress 0xC050 m c) v kRetries (k + 7)).2.2
          0xC001 1 = true := by
        cases hx : conn.writeResp
          (writeVerifyLoop conn (slotAddress 0xC050 m c) v kRetries (k + 7)).2.2
          0xC001 1
        · exact absurd hx hA
        · rfl
      by_cases hB : conn.writeResp
          ((writeVerifyLoop conn (slotAddress 0xC050 m c) v kRetries (k + 7)).2.2 + 1)
          (slotAddress 0xC090 m c) 1 = false
      · simp [hu1, hu2, hL, hA, hAt, hB]
      · have hBt : conn.writeResp
            ((writeVerifyLoop conn (slotAddress 0xC050 m c) v kRetries (k + 7)).2.2 + 1)
            (slotAddress 0xC090 m c) 1 = true := by
          cases hx : conn.writeResp
            ((writeVerifyLoop conn (slotAddress 0xC050 m c) v kRetries (k + 7)).2.2 + 1)
            (slotAddress 0xC090 m c) 1
          · exact absurd hx hB
          · rfl
        simp [hu1, hu2, hL, hA, hAt, hB, hBt]
  · by_cases hL : (writeVerifyLoop conn (slotAddress 0xC050 m c) v kRetries
        (k + 7)).1 = false <;>
      [skip; skip] <;>
      split_ifs <;>
      simp [List.filter_append, hfilG, Nat.beq_eq_true_eq, hga, hgc, hnc,
        Ne.symm hga, Ne.symm hgc, Ne.symm hnc]
  · by_cases hL : (writeVerifyLoop conn (slotAddress 0xC050 m c) v kRetries
        (k + 7)).1 = false <;>
      [skip; skip] <;>
      split_ifs <;>
      simp [List.filter_append, hfilC, Nat.beq_eq_true_eq, hga, hgc, hnc,
        Ne.symm hga, Ne.symm hgc, Ne.symm hnc]

/-- C3 witness: on the all-succeeding oracle a verified write with both
re-lock writes succeeding reports success. -/
theorem spec_c3_witness :
    (set_nominal_current okConn 1 1 7 0).1 = Except.ok true := by
  have h := spec_c3_cleanup_best_effort okConn 1 1 7 0 1 4
    (fun _ => rfl) (fun _ => rfl) (by decide) (by decide) (by decide) (by decide)
    (by decide) (by decide) rfl rfl rfl
  have h2 := h.2.1 rfl
  exact h2.trans rfl

/-- C1 counterexample: on an oracle where the channel-unlock write
succeeds and the global-unlock write fails at the transport level, the
function returns failure with the channel lock register successfully
written to 0 and never written back to 1: the derived channel lock state
at return is 0, not the locked value 1 the claim requires on every exit
path. -/
theorem spec_c1_counterexample :
    (set_nominal_current cxConnC1 1 1 10 0).1 = Except.ok false ∧
    Ev.writeReg (slotAddress 0xC090 1 1) 0 true ∈
      (set_nominal_current cxConnC1 1 1 10 0).2.1 ∧
    Ev.writeReg 0xC001 0 false ∈ (set_nominal_current cxConnC1 1 1 10 0).2.1 ∧
    lockStateAfter (slotAddress 0xC090 1 1)
      (set_nominal_current cxConnC1 1 1 10 0).2.1 = 0 :=
  ⟨rfl, by decide, by decide, by decide⟩

/-- C1 amended: both locks end in the locked state on every exit path
provided the global-unlock write does not fail after a successful
channel unlock (the gap path shown by the counterexample) and the
re-lock writes themselves succeed: under those conditions the derived
state of the global and the per-channel lock register is 1 when
`set_nominal_current` returns, on the success path, the
verification-exhaustion path, and the channel-unlock-failure path
alike. -/
theorem spec_c1_locks_restored_amended (conn : Conn) (m c v k N C : Nat)
    (hN : ∀ j, conn.readResp j 0x2000 = some N)
    (hCc : ∀ j, conn.readResp j (0x2001 + (m - 1)) = some C)
    (hm1 : 1 ≤ m) (hmN : m ≤ N) (hN16 : N ≤ 16) (hc1 : 1 ≤ c) (hcC : c ≤ C)
    (hc255 : c ≤ 255)
    (hRelockG : ∀ j, conn.writeResp j 0xC001 1 = true)
    (hRelockC : ∀ j, conn.writeResp j (slotAddress 0xC090 m c) 1 = true)
    (hNoGap : conn.writeResp (k + 5) (slotAddress 0xC090 m c) 0 = true →
      conn.writeResp (k + 6) 0xC001 0 = true) :
    lockStateAfter 0xC001 (set_nominal_current conn m c v k).2.1 = 1 ∧
    lockStateAfter (slotAddress 0xC090 m c)
      (set_nominal_current conn m c v k).2.1 = 1 := by
  have hm16 : m ≤ 16 := le_trans hmN hN16
  have hga : slotAddress 0xC050 m c ≠ 0xC001 :=
    nomAddr_ne_global m c hm1 hm16 hc1 hc255
  have hgc : slotAddress 0xC090 m c ≠ 0xC001 :=
    chLk_ne_global m c hm1 hm16 hc1 hc255
  have hnc : slotAddress 0xC050 m c ≠ slotAddress 0xC090 m c :=
    nomAddr_ne_chLk m c hm1 hm16 hc1 hc255
  have hfoldG : ∀ s, ((writeVerifyLoop conn (slotAddress 0xC050 m c) v kRetries
      (k + 7)).2.1).foldl (lockUpd 0xC001) s = s :=
    fun s => wvl_lockFold conn (slotAddress 0xC050 m c) v kRetries (k + 7) 0xC001 s
      (Ne.symm hga)
  have hfoldC : ∀ s, ((writeVerifyLoop conn (slotAddress 0xC050 m c) v kRetries
      (k + 7)).2.1).foldl (lockUpd (slotAddress 0xC090 m c)) s = s :=
    fun s => wvl_lockFold conn (slotAddress 0xC050 m c) v kRetries (k + 7)
      (slotAddress 0xC090 m c) s (Ne.symm hnc)
  by_cases hD : dialCheck ((conn.readBlockResp (k + 3) (0x1010 + (m - 1) * 0x10) 16).map
      read_string32_pure) = true
  · rw [snc_dial_reduce conn m c v k N C hN hCc hm1 hmN hN16 hc1 hcC hD]
    try dsimp only
    constructor <;> rfl
  · have hD' : dialCheck ((conn.readBlockResp (k + 3) (0x1010 + (m - 1) * 0x10) 16).map
        read_string32_pure) = false := by
      cases hx : dialCheck ((conn.readBlockResp (k + 3) (0x1010 + (m - 1) * 0x10) 16).map
        read_string32_pure)
      · rfl
      · exact absurd hx hD
    rw [snc_reduce conn m c v k N C hN hCc hm1 hmN hN16 hc1 hcC hD']
    try dsimp only
    by_cases h₁ : conn.writeResp (k + 5) (slotAddress 0xC090 m c) 0 = false
    · rw [if_pos h₁]
      try dsimp only
      constructor <;>
        simp [h₁, lockStateAfter, lockUpd, Ne.symm hgc, hgc]
    · have h₁t : conn.writeResp (k + 5) (slotAddress 0xC090 m c) 0 = true := by
        cases hx : conn.writeResp (k + 5) (slotAddress 0xC090 m c) 0
        · exact absurd hx h₁
        · rfl
      have h₂t := hNoGap h₁t
      rw [if_neg h₁, if_neg (by simp [h₂t])]
      try dsimp only
      by_cases hL : (writeVerifyLoop conn (slotAddress 0xC050 m c) v kRetries
          (k + 7)).1 = false
      · rw [if_pos hL]
        try dsimp only
        rw [hRelockG, hRelockC]
        constructor <;>
          simp [lockStateAfter, List.foldl_append, lockUpd, hfoldG, hfoldC,
            hga, hgc, hnc, Ne.symm hga, Ne.symm hgc, Ne.symm hnc]
      · rw [if_neg hL, if_neg (by simp [hRelockG]), if_neg (by simp [hRelockC])]
        try dsimp only
        constructor <;>
          simp [lockStateAfter, List.foldl_append, lockUpd, hfoldG, hfoldC,
            hga, hgc, hnc, Ne.symm hga, Ne.symm hgc, Ne.symm hnc]

/-- C1 witness: on the all-succeeding oracle the run for module 1
channel 1 leaves both lock registers in the locked state 1. -/
theorem spec_c1_witness :
    lockStateAfter 0xC001 (set_nominal_current okConn 1 1 7 0).2.1 = 1 ∧
    lockStateAfter (slotAddress 0xC090 1 1)
      (set_nominal_current okConn 1 1 7 0).2.1 = 1 :=
  spec_c1_locks_restored_amended okConn 1 1 7 0 1 4
    (fun _ => rfl) (fun _ => rfl) (by decide) (by decide) (by decide) (by decide)
    (by decide) (by decide) (fun _ => rfl) (fun _ => rfl) (fun _ => rfl)

end Caparoc

